import Mathlib

/-!
Verification of the identity and access-control core of the
Cloud-Enterprise-ERP-System repository.

The definitions below are a shallow embedding of the JavaScript source:

* `services/auth-service/src/utils/jwt.js` — token minting and verification
  (`generateAccessToken`, `generateRefreshToken`, `generateTokenPair`,
  `verifyAccessToken`, `verifyRefreshToken`, `getTokenExpiry`);
* `services/auth-service/src/models/RefreshToken.js` — the refresh ledger
  (`create`, `findByToken`, `isValid`, `revoke`, `revokeAllForUser`);
* `services/auth-service/src/models/User.js` — the credential store
  (`findByEmail`, `findById`, `sanitize`);
* `services/auth-service/src/controllers/authController.js` — the `refresh`
  and `logout` request handlers;
* `services/auth-service/src/middleware/auth.js` — the bearer-token
  middleware with its advisory Redis session lookup;
* `services/user-service/src/middleware/auth.js` — the user-service
  middleware that also accepts gateway identity headers.

A JWT string is modelled as either a well-formed signed payload together
with the key that signed it, or an arbitrary malformed string.  Signature
verification succeeds exactly when the verifying key equals the signing
key.  Timestamps are seconds as natural numbers.  Asynchronous database
state is passed explicitly through an `AuthState` record.
-/

namespace ERP

/-- The two signing secrets of `jwt.js`: `JWT_SECRET` (access) and
`JWT_REFRESH_SECRET` (refresh).  They are distinct constants in the source. -/
inductive Key where
  | accessKey
  | refreshKey
deriving DecidableEq, Repr

/-- The claims embedded in a signed credential.  `generateAccessToken` sets
`userId`, `email`, `roles`, `permissions`, `type := "access"`;
`generateRefreshToken` sets `userId`, `email`, `type := "refresh"` and a
random `tokenId` (modelled as a caller-supplied nonce).  `jwt.sign` adds
`iss`, `aud`, `iat` and `exp`. -/
structure TokenPayload where
  userId : String
  email : String
  roles : List String
  permissions : List String
  type : String
  tokenId : String
  iss : String
  aud : String
  iat : Nat
  exp : Nat
deriving DecidableEq, Repr

/-- A credential string: either a well-formed JWT (payload plus signing key)
or an arbitrary malformed string. -/
inductive Token where
  | signed (payload : TokenPayload) (key : Key)
  | malformed (raw : String)
deriving DecidableEq, Repr

/-- Issuer tag used by `jwt.sign` / `jwt.verify` in `jwt.js`. -/
def issuer : String := "erp-auth-service"

/-- Audience tag used by `jwt.sign` / `jwt.verify` in `jwt.js`. -/
def audience : String := "erp-services"

/-- `JWT_ACCESS_EXPIRY` default `15m`, in seconds. -/
def accessExpirySeconds : Nat := 15 * 60

/-- `JWT_REFRESH_EXPIRY` default `7d`, in seconds. -/
def refreshExpirySeconds : Nat := 7 * 24 * 60 * 60

/-- The users table row joined with roles and permissions, as selected by
`User.findByEmail`.  `password_hash` is `none` when the read path did not
select the hash (or it was stripped). -/
structure User where
  id : String
  email : String
  password_hash : Option String
  roles : List String
  permissions : List String
  is_active : Bool
deriving DecidableEq, Repr

/-- `generateAccessToken` from `jwt.js`: signs with `JWT_SECRET`, embeds
roles and permissions and `type: 'access'`, expiry `now + 15m`. -/
def generateAccessToken (now : Nat) (u : User) : Token :=
  Token.signed
    { userId := u.id, email := u.email, roles := u.roles,
      permissions := u.permissions, type := "access", tokenId := "",
      iss := issuer, aud := audience, iat := now,
      exp := now + accessExpirySeconds }
    Key.accessKey

/-- `generateRefreshToken` from `jwt.js`: signs with `JWT_REFRESH_SECRET`,
embeds only `userId`, `email`, `type: 'refresh'` and a unique `tokenId`
(the `nonce` argument models `crypto.randomBytes(16)`), expiry `now + 7d`. -/
def generateRefreshToken (now : Nat) (nonce : String) (u : User) : Token :=
  Token.signed
    { userId := u.id, email := u.email, roles := [], permissions := [],
      type := "refresh", tokenId := nonce, iss := issuer, aud := audience,
      iat := now, exp := now + refreshExpirySeconds }
    Key.refreshKey

/-- The `{ accessToken, refreshToken }` pair returned by `generateTokenPair`. -/
structure TokenPair where
  accessToken : Token
  refreshToken : Token
deriving DecidableEq, Repr

/-- `generateTokenPair` from `jwt.js`. -/
def generateTokenPair (now : Nat) (nonce : String) (u : User) : TokenPair :=
  { accessToken := generateAccessToken now u,
    refreshToken := generateRefreshToken now nonce u }

/-- `jwt.verify(token, secret, issuer/audience)`: checks the signature (the
verifying key must be the signing key), the issuer and audience tags, and
expiry.  Every failure — malformed structure, wrong signature, wrong
issuer/audience, expiry — throws in the source and is collapsed by the
callers' `catch` into the single value `null`, modelled as `none`. -/
def jwtVerify (key : Key) (now : Nat) (t : Token) : Option TokenPayload :=
  match t with
  | Token.malformed _ => none
  | Token.signed p k =>
    if k = key then
      if p.iss = issuer then
        if p.aud = audience then
          if now < p.exp then some p else none
        else none
      else none
    else none

/-- `verifyAccessToken` from `jwt.js`: `jwt.verify` with `JWT_SECRET`, then
`decoded.type !== 'access'` throws; the `catch` returns `null`. -/
def verifyAccessToken (now : Nat) (t : Token) : Option TokenPayload :=
  match jwtVerify Key.accessKey now t with
  | none => none
  | some p => if p.type = "access" then some p else none

/-- `verifyRefreshToken` from `jwt.js`: `jwt.verify` with
`JWT_REFRESH_SECRET`, then `decoded.type !== 'refresh'` throws; the `catch`
returns `null`. -/
def verifyRefreshToken (now : Nat) (t : Token) : Option TokenPayload :=
  match jwtVerify Key.refreshKey now t with
  | none => none
  | some p => if p.type = "refresh" then some p else none

/-- `getTokenExpiry` from `jwt.js`: `jwt.decode` without verification and
read `exp`; `null` for undecodable strings. -/
def getTokenExpiry : Token → Option Nat
  | Token.signed p _ => some p.exp
  | Token.malformed _ => none

/-- JavaScript's `email.toLowerCase()`: lowercase every character. -/
def lowerString (s : String) : String :=
  String.mk (s.data.map Char.toLower)

namespace User

/-- `User.findByEmail` from `User.js`: `WHERE u.email = $1` with the query
argument lowercased (`email.toLowerCase()`).  The SQL selects
`u.password_hash`, so the row is returned with the hash included. -/
def findByEmail (db : List User) (email : String) : Option User :=
  db.find? fun u => u.email = lowerString email

/-- `User.findById` from `User.js`: `WHERE u.id = $1`.  The SQL does not
select `password_hash`, so the returned record carries no hash. -/
def findById (db : List User) (userId : String) : Option User :=
  (db.find? fun u => u.id = userId).map fun u => { u with password_hash := none }

/-- `User.sanitize` from `User.js`: `delete sanitized.password_hash`. -/
def sanitize (u : User) : User :=
  { u with password_hash := none }

end User

/-- A row of the `refresh_tokens` table.  `expiresAt = 0` models an SQL
`NULL` expiry, which compares as not-in-the-future. -/
structure LedgerEntry where
  userId : String
  token : Token
  expiresAt : Nat
  revoked : Bool
deriving DecidableEq, Repr

namespace RefreshToken

/-- `RefreshToken.create`: `INSERT ... VALUES (userId, token, expiresAt, false)`. -/
def create (userId : String) (tok : Token) (expiresAt : Nat)
    (l : List LedgerEntry) : List LedgerEntry :=
  l ++ [{ userId := userId, token := tok, expiresAt := expiresAt, revoked := false }]

/-- `RefreshToken.findByToken`: `SELECT ... WHERE token = $1`, first row or null. -/
def findByToken (tok : Token) (l : List LedgerEntry) : Option LedgerEntry :=
  l.find? fun e => e.token = tok

/-- `RefreshToken.isValid`: `SELECT id WHERE token = $1 AND revoked = false
AND expires_at > CURRENT_TIMESTAMP`, true when a row matches. -/
def isValid (now : Nat) (tok : Token) (l : List LedgerEntry) : Bool :=
  l.any fun e => decide (e.token = tok) && !e.revoked && decide (now < e.expiresAt)

/-- `RefreshToken.revoke`: `UPDATE refresh_tokens SET revoked = true WHERE
token = $1`.  Updates every matching row; unknown tokens update nothing and
raise no error. -/
def revoke (tok : Token) (l : List LedgerEntry) : List LedgerEntry :=
  l.map fun e => if e.token = tok then { e with revoked := true } else e

/-- `RefreshToken.revokeAllForUser`: `UPDATE ... SET revoked = true WHERE
user_id = $1 AND revoked = false`. -/
def revokeAllForUser (userId : String) (l : List LedgerEntry) : List LedgerEntry :=
  l.map fun e => if e.userId = userId && !e.revoked then { e with revoked := true } else e

end RefreshToken

/-- The mutable state the auth-service controllers read and write: the
`users` table, the `refresh_tokens` table and the set of user ids that have
a `session:<id>` entry in Redis. -/
structure AuthState where
  users : List User
  ledger : List LedgerEntry
  sessions : List String
deriving DecidableEq, Repr

/-- The error codes surfaced by `AuthController.refresh`. -/
inductive AuthErrorCode where
  | INVALID_TOKEN
  | TOKEN_REVOKED
  | UNAUTHORIZED
deriving DecidableEq, Repr

namespace AuthController

/-- `AuthController.refresh` from `authController.js`: verify the presented
refresh credential cryptographically, check the ledger, load the owning
user and require it active, then mint a new pair, revoke the presented
token and record the new refresh token.  Error paths return the state
unchanged and issue nothing. -/
def refresh (now : Nat) (nonce : String) (s : AuthState) (tok : Token) :
    AuthState × Except AuthErrorCode TokenPair :=
  match verifyRefreshToken now tok with
  | none => (s, Except.error AuthErrorCode.INVALID_TOKEN)
  | some d =>
    if RefreshToken.isValid now tok s.ledger then
      match User.findById s.users d.userId with
      | none => (s, Except.error AuthErrorCode.UNAUTHORIZED)
      | some u =>
        if u.is_active then
          let tokens := generateTokenPair now nonce u
          let l1 := RefreshToken.revoke tok s.ledger
          let l2 := RefreshToken.create u.id tokens.refreshToken
            ((getTokenExpiry tokens.refreshToken).getD 0) l1
          ({ s with ledger := l2 }, Except.ok tokens)
        else (s, Except.error AuthErrorCode.UNAUTHORIZED)
    else (s, Except.error AuthErrorCode.TOKEN_REVOKED)

/-- The state observable if the process dies between the two awaited writes
`RefreshToken.revoke(refreshToken)` and `RefreshToken.create(...)` inside
`AuthController.refresh` — the source issues them as two separate SQL
statements with no transaction, so this intermediate state is durable. -/
def refreshCrashedAfterRevoke (now : Nat) (s : AuthState) (tok : Token) : AuthState :=
  match verifyRefreshToken now tok with
  | none => s
  | some d =>
    if RefreshToken.isValid now tok s.ledger then
      match User.findById s.users d.userId with
      | none => s
      | some u =>
        if u.is_active then { s with ledger := RefreshToken.revoke tok s.ledger }
        else s
    else s

/-- `AuthController.logout` from `authController.js`: revoke the presented
refresh token if one was sent (no ownership check against the authenticated
`req.user`), delete the Redis session of the authenticated user if known,
and respond 200 unconditionally. -/
def logout (s : AuthState) (refreshTok : Option Token) (authUserId : Option String) :
    AuthState × Nat :=
  let s1 := match refreshTok with
    | some t => { s with ledger := RefreshToken.revoke t s.ledger }
    | none => s
  let s2 := match authUserId with
    | some uid => { s1 with sessions := s1.sessions.filter fun x => x ≠ uid }
    | none => s1
  (s2, 200)

end AuthController

/-- The JSON blob cached under `session:<principal id>`. -/
structure SessionBlob where
  userId : String
  email : String
  roles : List String
  permissions : List String
deriving DecidableEq, Repr

/-- The three states the Redis session cache can be in for the queried key. -/
inductive CacheState where
  | entry (snapshot : SessionBlob)
  | absent
  | unavailable
deriving DecidableEq, Repr

/-- `redisHelpers.get` from `config/database.js`: returns the parsed value,
`null` on a miss, and — because the helper catches every Redis client error
internally — also `null` when the cache is unavailable. -/
def redisHelpersGet (c : CacheState) : Option SessionBlob :=
  match c with
  | CacheState.entry s => some s
  | CacheState.absent => none
  | CacheState.unavailable => none

/-- An incoming request's `Authorization` header: absent, or a scheme word
together with the credential it carries (`"Bearer <token>"` is the
recognised form). -/
structure MWRequest where
  authHeader : Option (String × Token)
deriving Repr

/-- `extractTokenFromHeader` from `jwt.js`: split on the space, accept
exactly the two-part `Bearer <token>` form, otherwise `null`. -/
def extractTokenFromHeader (h : Option (String × Token)) : Option Token :=
  match h with
  | none => none
  | some (scheme, tok) => if scheme = "Bearer" then some tok else none

namespace AuthMiddleware

/-- The middleware's per-request outcome: a 401 with `NO_TOKEN`, a 401 with
`INVALID_TOKEN`, or proceed with the resolved identity attached to
`req.user`. -/
inductive MWResult where
  | noToken
  | invalidToken
  | ok (userId email : String) (roles permissions : List String)
deriving DecidableEq, Repr

/-- `authenticate` from `services/auth-service/src/middleware/auth.js`:
extract the bearer token, verify it, consult the Redis session cache
(the result is only logged on a miss and never used for the decision),
then attach `userId`, `email`, `roles`, `permissions` from the token. -/
def authenticate (now : Nat) (cache : CacheState) (req : MWRequest) : MWResult :=
  match extractTokenFromHeader req.authHeader with
  | none => MWResult.noToken
  | some tok =>
    match verifyAccessToken now tok with
    | none => MWResult.invalidToken
    | some d =>
      let _session := redisHelpersGet cache
      MWResult.ok d.userId d.email d.roles d.permissions

end AuthMiddleware

namespace UserService

/-- An incoming user-service request: the gateway identity headers
(`x-user-id`, `x-user-email`, `x-user-roles`, the last one already
JSON-parsed) and the `Authorization` header. -/
structure USRequest where
  xUserId : Option String
  xUserEmail : Option String
  xUserRoles : Option (List String)
  authHeader : Option (String × Token)
deriving Repr

/-- The user-service middleware's outcome: 401 `UNAUTHORIZED`, 401
`INVALID_TOKEN`, or proceed with the attached identity. -/
inductive USAuthResult where
  | authenticated (userId email : String) (roles : List String)
  | unauthorized
  | invalidToken
deriving DecidableEq, Repr

/-- `jwt.verify(token, JWT_SECRET)` as called by
`services/user-service/src/middleware/auth.js`: signature and expiry only —
no issuer/audience options are passed and no `type` discriminator check is
performed. -/
def usJwtVerify (now : Nat) (t : Token) : Option TokenPayload :=
  match t with
  | Token.malformed _ => none
  | Token.signed p k =>
    if k = Key.accessKey then
      if now < p.exp then some p else none
    else none

/-- The truthiness test `if (userId && userEmail)` on the identity headers:
both present and non-empty. -/
def headerIdentity (req : USRequest) : Option (String × String) :=
  match req.xUserId, req.xUserEmail with
  | some uid, some em => if uid = "" ∨ em = "" then none else some (uid, em)
  | _, _ => none

/-- `authenticate` from `services/user-service/src/middleware/auth.js`:
when `x-user-id` and `x-user-email` are present the request is treated as
authenticated with exactly that identity — no credential is checked and no
test distinguishes a trusted gateway from any other caller.  Only otherwise
does it fall back to verifying a bearer token. -/
def authenticate (now : Nat) (req : USRequest) : USAuthResult :=
  match headerIdentity req with
  | some (uid, em) => USAuthResult.authenticated uid em (req.xUserRoles.getD [])
  | none =>
    match req.authHeader with
    | none => USAuthResult.unauthorized
    | some (scheme, tok) =>
      if scheme = "Bearer" then
        match usJwtVerify now tok with
        | none => USAuthResult.invalidToken
        | some d => USAuthResult.authenticated d.userId d.email d.roles
      else USAuthResult.unauthorized

end UserService

/-! Spec-side definitions.  The specification's §4.2 names three distinct
failure causes for access-token verification.  The following predicates
state, over the code's token model, when each cause is present; they are
used to compare the specification's taxonomy against the single collapsed
outcome the code produces. -/

/-- Spec cause `Expired`: the credential is structurally sound, carries a
valid access signature and the right issuer/audience, but the clock has
passed its expiry. -/
def expiredCauseAccess (now : Nat) : Token → Bool
  | Token.malformed _ => false
  | Token.signed p k =>
    decide (k = Key.accessKey) && decide (p.iss = issuer) &&
    decide (p.aud = audience) && decide (p.exp ≤ now)

/-- Spec cause `WrongType`: the credential verifies cryptographically and is
unexpired, but its `type` discriminator is not `access`. -/
def wrongTypeCauseAccess (now : Nat) : Token → Bool
  | Token.malformed _ => false
  | Token.signed p k =>
    decide (k = Key.accessKey) && decide (p.iss = issuer) &&
    decide (p.aud = audience) && decide (now < p.exp) && !(decide (p.type = "access"))

/-- The conjunction of the three checks the spec's §4.2 requires for
access-token verification to succeed: valid signature and structure
(including issuer/audience), unexpired, and `type = access`. -/
def accessChecksPass (now : Nat) : Token → Bool
  | Token.malformed _ => false
  | Token.signed p k =>
    decide (k = Key.accessKey) && decide (p.iss = issuer) &&
    decide (p.aud = audience) && decide (now < p.exp) && decide (p.type = "access")

/-! Concrete fixtures used by counterexamples and witnesses. -/

/-- A refresh-token payload issued at time 0 with expiry 100. -/
def cPayload0 : TokenPayload :=
  { userId := "u1", email := "alice@example.com", roles := [], permissions := [],
    type := "refresh", tokenId := "t0", iss := issuer, aud := audience,
    iat := 0, exp := 100 }

/-- A signed refresh credential for principal `u1`. -/
def cR0 : Token := Token.signed cPayload0 Key.refreshKey

/-- An access-token payload issued at time 0 with expiry 100. -/
def cPayloadA : TokenPayload :=
  { userId := "u1", email := "alice@example.com", roles := ["viewer"],
    permissions := ["orders:read"], type := "access", tokenId := "",
    iss := issuer, aud := audience, iat := 0, exp := 100 }

/-- The stored row for principal `u1`, hash included. -/
def cU1 : User :=
  { id := "u1", email := "alice@example.com", password_hash := some "bcrypt-hash-1",
    roles := ["viewer"], permissions := ["orders:read"], is_active := true }

/-- Principal `u1` as returned by `User.findById` (no hash selected). -/
def cU1s : User := { cU1 with password_hash := none }

/-- The ledger row recording `cR0`. -/
def cEntry0 : LedgerEntry :=
  { userId := "u1", token := cR0, expiresAt := 100, revoked := false }

/-- A database state holding `u1`, its recorded refresh credential and its
Redis session. -/
def cS0 : AuthState := { users := [cU1], ledger := [cEntry0], sessions := ["u1"] }

/-- The token pair minted by a refresh of `cR0` at time 10 with nonce `n1`. -/
def cP1 : TokenPair := generateTokenPair 10 "n1" cU1s

/-- The state after that first, successful refresh. -/
def cS1 : AuthState := (AuthController.refresh 10 "n1" cS0 cR0).1

/-- An access credential that is expired at time 200 but otherwise valid. -/
def cTokExpired : Token := Token.signed cPayloadA Key.accessKey

/-- A credential signed with the access key, unexpired at time 200, but
carrying the `refresh` type discriminator. -/
def cTokWrong : Token :=
  Token.signed { cPayloadA with type := "refresh", exp := 1000 } Key.accessKey

/-- An access credential that passes all three checks at time 200. -/
def cTokOk : Token :=
  Token.signed { cPayloadA with exp := 1000 } Key.accessKey

/-! Helper lemmas. -/

/-- Inversion for `jwtVerify`: a successful verification pins the token's
shape, signing key, issuer, audience and freshness. -/
theorem jwtVerify_eq_some (key : Key) (now : Nat) (t : Token) (p : TokenPayload)
    (h : jwtVerify key now t = some p) :
    t = Token.signed p key ∧ p.iss = issuer ∧ p.aud = audience ∧ now < p.exp := by
  cases t with
  | malformed s => exact absurd h (by simp [jwtVerify])
  | signed q k =>
    by_cases hk : k = key
    · by_cases hi : q.iss = issuer
      · by_cases ha : q.aud = audience
        · by_cases he : now < q.exp
          · have hq : q = p := by simpa [jwtVerify, hk, hi, ha, he] using h
            subst hq
            exact ⟨by rw [hk], hi, ha, he⟩
          · exact absurd h (by simp [jwtVerify, hk, hi, ha, he])
        · exact absurd h (by simp [jwtVerify, hk, hi, ha])
      · exact absurd h (by simp [jwtVerify, hk, hi])
    · exact absurd h (by simp [jwtVerify, hk])

/-- Inversion for `verifyRefreshToken`. -/
theorem verifyRefresh_eq_some (now : Nat) (t : Token) (p : TokenPayload)
    (h : verifyRefreshToken now t = some p) :
    t = Token.signed p Key.refreshKey ∧ p.iss = issuer ∧ p.aud = audience ∧
      now < p.exp ∧ p.type = "refresh" := by
  unfold verifyRefreshToken at h
  cases hj : jwtVerify Key.refreshKey now t with
  | none => rw [hj] at h; simp at h
  | some d =>
    rw [hj] at h
    by_cases hd : d.type = "refresh"
    · have hdp : d = p := by simpa [hd] using h
      obtain ⟨ht, hi, ha, he⟩ := jwtVerify_eq_some _ _ _ _ hj
      subst hdp
      exact ⟨ht, hi, ha, he, hd⟩
    · exact absurd h (by simp [hd])

/-- After `revoke tok`, no row makes `tok` valid. -/
theorem isValid_revoke_self (now : Nat) (tok : Token) (l : List LedgerEntry) :
    RefreshToken.isValid now tok (RefreshToken.revoke tok l) = false := by
  unfold RefreshToken.isValid RefreshToken.revoke
  rw [List.any_map, List.any_eq_false]
  intro e _
  by_cases h : e.token = tok
  · simp [Function.comp, h]
  · simp [Function.comp, h]

/-- Recording a different token does not change `tok`'s validity. -/
theorem isValid_create_of_ne (now : Nat) (tok t2 : Token) (uid : String) (ex : Nat)
    (l : List LedgerEntry) (h : t2 ≠ tok) :
    RefreshToken.isValid now tok (RefreshToken.create uid t2 ex l) =
      RefreshToken.isValid now tok l := by
  unfold RefreshToken.isValid RefreshToken.create
  rw [List.any_append]
  simp [h]

/-- `refresh` when the credential fails cryptographic verification. -/
theorem refresh_verify_none (now : Nat) (nonce : String) (s : AuthState) (tok : Token)
    (h : verifyRefreshToken now tok = none) :
    AuthController.refresh now nonce s tok = (s, Except.error AuthErrorCode.INVALID_TOKEN) := by
  unfold AuthController.refresh
  rw [h]

/-- `refresh` when the ledger check fails. -/
theorem refresh_not_valid (now : Nat) (nonce : String) (s : AuthState) (tok : Token)
    (d : TokenPayload) (h : verifyRefreshToken now tok = some d)
    (h2 : RefreshToken.isValid now tok s.ledger = false) :
    AuthController.refresh now nonce s tok = (s, Except.error AuthErrorCode.TOKEN_REVOKED) := by
  unfold AuthController.refresh
  rw [h]
  simp [h2]

/-- `refresh` when the owning user is missing. -/
theorem refresh_no_user (now : Nat) (nonce : String) (s : AuthState) (tok : Token)
    (d : TokenPayload) (h : verifyRefreshToken now tok = some d)
    (h2 : RefreshToken.isValid now tok s.ledger = true)
    (h3 : User.findById s.users d.userId = none) :
    AuthController.refresh now nonce s tok = (s, Except.error AuthErrorCode.UNAUTHORIZED) := by
  unfold AuthController.refresh
  rw [h]
  simp [h2, h3]

/-- `refresh` when the owning user is inactive. -/
theorem refresh_inactive (now : Nat) (nonce : String) (s : AuthState) (tok : Token)
    (d : TokenPayload) (u : User) (h : verifyRefreshToken now tok = some d)
    (h2 : RefreshToken.isValid now tok s.ledger = true)
    (h3 : User.findById s.users d.userId = some u)
    (h4 : u.is_active = false) :
    AuthController.refresh now nonce s tok = (s, Except.error AuthErrorCode.UNAUTHORIZED) := by
  unfold AuthController.refresh
  rw [h]
  simp [h2, h3, h4]

/-- `refresh` on the success path: revoke the presented entry, then record
the new refresh credential. -/
theorem refresh_success (now : Nat) (nonce : String) (s : AuthState) (tok : Token)
    (d : TokenPayload) (u : User) (h : verifyRefreshToken now tok = some d)
    (h2 : RefreshToken.isValid now tok s.ledger = true)
    (h3 : User.findById s.users d.userId = some u)
    (h4 : u.is_active = true) :
    AuthController.refresh now nonce s tok =
      ({ s with
           ledger := RefreshToken.create u.id (generateTokenPair now nonce u).refreshToken
             ((getTokenExpiry (generateTokenPair now nonce u).refreshToken).getD 0)
             (RefreshToken.revoke tok s.ledger) },
       Except.ok (generateTokenPair now nonce u)) := by
  unfold AuthController.refresh
  rw [h]
  simp [h2, h3, h4]

/-- `logout` always records the presented token as revoked, whoever the
authenticated caller is. -/
theorem logout_ledger_eq (s : AuthState) (t : Token) (a : Option String) :
    (AuthController.logout s (some t) a).1.ledger = RefreshToken.revoke t s.ledger := by
  cases a <;> rfl

/-- `verifyAccessToken` succeeds exactly when the three checks of §4.2 pass. -/
theorem verifyAccess_isSome_eq (now : Nat) (t : Token) :
    (verifyAccessToken now t).isSome = accessChecksPass now t := by
  cases t with
  | malformed s => rfl
  | signed p k =>
    by_cases hk : k = Key.accessKey
    · by_cases hi : p.iss = issuer
      · by_cases ha : p.aud = audience
        · by_cases he : now < p.exp
          · by_cases hty : p.type = "access"
            · simp [verifyAccessToken, jwtVerify, accessChecksPass, hk, hi, ha, he, hty]
            · simp [verifyAccessToken, jwtVerify, accessChecksPass, hk, hi, ha, he, hty]
          · simp [verifyAccessToken, jwtVerify, accessChecksPass, hk, hi, ha, he]
        · simp [verifyAccessToken, jwtVerify, accessChecksPass, hk, hi, ha]
      · simp [verifyAccessToken, jwtVerify, accessChecksPass, hk, hi]
    · simp [verifyAccessToken, jwtVerify, accessChecksPass, hk]

/-- `verifyAccessToken` returns the single failure value `none` whenever any
check fails. -/
theorem verifyAccess_none_of_checks_false (now : Nat) (t : Token)
    (h : accessChecksPass now t = false) : verifyAccessToken now t = none := by
  have hs := verifyAccess_isSome_eq now t
  rw [h] at hs
  cases ho : verifyAccessToken now t with
  | none => rfl
  | some p => rw [ho] at hs; simp at hs

/-! Claim theorems. -/

/-- Claim C1, counterexample: after a successful refresh of `cR0` at time
10, a second refresh request presenting the same original credential at
time 150 — past the credential's cryptographic expiry of 100 — fails with
`INVALID_TOKEN`, not with the `TOKEN_REVOKED` error the claim promises for
any second request. -/
theorem refresh_replay_after_expiry_not_revoked_error :
    (AuthController.refresh 10 "n1" cS0 cR0).2 = Except.ok cP1 ∧
    AuthController.refresh 150 "n2" cS1 cR0
      = (cS1, Except.error AuthErrorCode.INVALID_TOKEN) ∧
    AuthErrorCode.INVALID_TOKEN ≠ AuthErrorCode.TOKEN_REVOKED :=
  ⟨rfl, rfl, by decide⟩

/-- Claim C1, amended: after a refresh request using a refresh credential
succeeds once, any second refresh request presenting the same original
credential while it is still within its cryptographic validity window fails
with the `TOKEN_REVOKED` error, leaves the state unchanged and issues no
new token pair.  (Past the window the request still fails and issues
nothing, but with `INVALID_TOKEN`.)  The hypothesis `hne` is the spec's
uniqueness invariant: the newly minted refresh credential differs from the
presented one. -/
theorem refresh_replay_rejected_revoked (now t : Nat) (n1 n2 : String)
    (s s' : AuthState) (tok : Token) (pair : TokenPair)
    (hfst : AuthController.refresh now n1 s tok = (s', Except.ok pair))
    (hne : pair.refreshToken ≠ tok)
    (ht : t < (getTokenExpiry tok).getD 0) :
    AuthController.refresh t n2 s' tok = (s', Except.error AuthErrorCode.TOKEN_REVOKED) := by
  cases hv : verifyRefreshToken now tok with
  | none => rw [refresh_verify_none now n1 s tok hv] at hfst; simp at hfst
  | some d =>
    cases hval : RefreshToken.isValid now tok s.ledger with
    | false => rw [refresh_not_valid now n1 s tok d hv hval] at hfst; simp at hfst
    | true =>
      cases hu : User.findById s.users d.userId with
      | none => rw [refresh_no_user now n1 s tok d hv hval hu] at hfst; simp at hfst
      | some u =>
        cases hact : u.is_active with
        | false => rw [refresh_inactive now n1 s tok d u hv hval hu hact] at hfst; simp at hfst
        | true =>
          rw [refresh_success now n1 s tok d u hv hval hu hact] at hfst
          simp only [Prod.mk.injEq, Except.ok.injEq] at hfst
          obtain ⟨hs, hp⟩ := hfst
          obtain ⟨htok, hi, ha, _, hty⟩ := verifyRefresh_eq_some now tok d hv
          have hexp : (getTokenExpiry tok).getD 0 = d.exp := by rw [htok]; rfl
          rw [hexp] at ht
          have hv2 : verifyRefreshToken t tok = some d := by
            rw [htok]
            simp [verifyRefreshToken, jwtVerify, hi, ha, ht, hty]
          have hne2 : (generateTokenPair now n1 u).refreshToken ≠ tok := by
            rw [hp]; exact hne
          have hinv : RefreshToken.isValid t tok s'.ledger = false := by
            rw [← hs]
            show RefreshToken.isValid t tok
              (RefreshToken.create u.id (generateTokenPair now n1 u).refreshToken
                ((getTokenExpiry (generateTokenPair now n1 u).refreshToken).getD 0)
                (RefreshToken.revoke tok s.ledger)) = false
            exact (isValid_create_of_ne t tok _ _ _ _ hne2).trans
              (isValid_revoke_self t tok s.ledger)
          exact refresh_not_valid t n2 s' tok d hv2 hinv

/-- Claim C1, witness: the amended theorem applied to the concrete first
refresh of `cR0` at time 10 and a replay at time 50, inside the window. -/
theorem refresh_replay_rejected_revoked_witness :
    AuthController.refresh 50 "n2" cS1 cR0
      = (cS1, Except.error AuthErrorCode.TOKEN_REVOKED) :=
  refresh_replay_rejected_revoked 10 50 "n1" "n2" cS0 cS1 cR0 cP1 rfl
    (by decide) (by decide)

/-- Claim C2: in `AuthController.refresh` the revoke and the record of the
new entry are two separate awaited SQL statements with no transaction, so a
crash between them is durable.  On the concrete state `cS0` the presented
credential `cR0` is valid before the request, yet the crashed rotation
leaves it revoked with no replacement recorded, and the client's retry with
the old credential fails with `TOKEN_REVOKED` instead of remaining
possible. -/
theorem rotation_crash_strands_old_credential :
    RefreshToken.isValid 10 cR0 cS0.ledger = true ∧
    (AuthController.refreshCrashedAfterRevoke 10 cS0 cR0).ledger
      = [{ userId := "u1", token := cR0, expiresAt := 100, revoked := true }] ∧
    RefreshToken.isValid 10 cR0 (AuthController.refreshCrashedAfterRevoke 10 cS0 cR0).ledger
      = false ∧
    AuthController.refresh 11 "n2" (AuthController.refreshCrashedAfterRevoke 10 cS0 cR0) cR0
      = (AuthController.refreshCrashedAfterRevoke 10 cS0 cR0,
         Except.error AuthErrorCode.TOKEN_REVOKED) :=
  ⟨rfl, rfl, rfl, rfl⟩

/-- Claim C3: verification fails closed on a type mismatch.  Access-token
verification rejects any credential whose `type` discriminator is
`refresh`, and refresh-token verification rejects any credential whose
discriminator is `access`, whatever key signed it — including the matching
one. -/
theorem credential_type_fail_closed (now : Nat) (p q : TokenPayload) (k k2 : Key)
    (hp : p.type = "refresh") (hq : q.type = "access") :
    verifyAccessToken now (Token.signed p k) = none ∧
    verifyRefreshToken now (Token.signed q k2) = none := by
  constructor
  · cases hj : jwtVerify Key.accessKey now (Token.signed p k) with
    | none => simp [verifyAccessToken, hj]
    | some d =>
      obtain ⟨ht, _, _, _⟩ := jwtVerify_eq_some _ _ _ _ hj
      have hpd : p = d := by injection ht
      simp [verifyAccessToken, hj, ← hpd, hp]
  · cases hj : jwtVerify Key.refreshKey now (Token.signed q k2) with
    | none => simp [verifyRefreshToken, hj]
    | some d =>
      obtain ⟨ht, _, _, _⟩ := jwtVerify_eq_some _ _ _ _ hj
      have hqd : q = d := by injection ht
      simp [verifyRefreshToken, hj, ← hqd, hq]

/-- Claim C3, witness: a refresh-typed payload signed with the access key is
rejected by access verification, and an access-typed payload signed with
the refresh key is rejected by refresh verification. -/
theorem credential_type_fail_closed_witness :
    verifyAccessToken 0 (Token.signed cPayload0 Key.accessKey) = none ∧
    verifyRefreshToken 0 (Token.signed cPayloadA Key.refreshKey) = none :=
  credential_type_fail_closed 0 cPayload0 cPayloadA Key.accessKey Key.refreshKey rfl rfl

/-- Claim C4, counterexample: `cTokExpired` fails only because it is
expired and `cTokWrong` fails only because its type discriminator is wrong,
yet `verifyAccessToken` produces the identical outcome (`null`, surfaced as
`INVALID_TOKEN`) for both, and the same outcome again for a malformed
string — the failure outcome does not distinguish the three causes. -/
theorem verify_failure_causes_collapse :
    expiredCauseAccess 200 cTokExpired = true ∧
    wrongTypeCauseAccess 200 cTokWrong = true ∧
    expiredCauseAccess 200 cTokWrong = false ∧
    wrongTypeCauseAccess 200 cTokExpired = false ∧
    verifyAccessToken 200 cTokExpired = verifyAccessToken 200 cTokWrong ∧
    verifyAccessToken 200 cTokExpired = verifyAccessToken 200 (Token.malformed "not-a-jwt") :=
  ⟨rfl, rfl, rfl, rfl, rfl, rfl⟩

/-- Claim C4, amended: verification succeeds exactly when all three checks
(signature and structure, expiry, type discriminator) pass; every invalid
token yields the one undifferentiated failure outcome `none`, so any two
tokens that fail — for whatever distinct causes — produce the identical
result. -/
theorem verify_single_failure_outcome (now : Nat) (t1 t2 tOk : Token)
    (h1 : accessChecksPass now t1 = false) (h2 : accessChecksPass now t2 = false)
    (h3 : accessChecksPass now tOk = true) :
    verifyAccessToken now t1 = none ∧ verifyAccessToken now t2 = none ∧
    verifyAccessToken now t1 = verifyAccessToken now t2 ∧
    (verifyAccessToken now tOk).isSome = true := by
  have e1 := verifyAccess_none_of_checks_false now t1 h1
  have e2 := verifyAccess_none_of_checks_false now t2 h2
  refine ⟨e1, e2, e1.trans e2.symm, ?_⟩
  rw [verifyAccess_isSome_eq, h3]

/-- Claim C4, witness: the amended theorem at an expired token, a
wrong-type token and a fully valid token. -/
theorem verify_single_failure_outcome_witness :
    verifyAccessToken 200 cTokExpired = none ∧ verifyAccessToken 200 cTokWrong = none ∧
    verifyAccessToken 200 cTokExpired = verifyAccessToken 200 cTokWrong ∧
    (verifyAccessToken 200 cTokOk).isSome = true :=
  verify_single_failure_outcome 200 cTokExpired cTokWrong cTokOk rfl rfl rfl

/-- Claim C5: after `logout` revokes the presented refresh credential, a
refresh attempt with that credential inside its cryptographic lifetime
fails with `TOKEN_REVOKED` and changes nothing, while an access credential
issued before the logout keeps verifying successfully until its own expiry
— `verifyAccessToken` consults only the clock and the signature, never the
ledger. -/
theorem logout_revokes_refresh_access_survives (s : AuthState) (u : User)
    (t0 t1 t2 : Nat) (n1 n2 : String) (auid : Option String)
    (h1 : t1 < t0 + refreshExpirySeconds)
    (h2 : t2 < t0 + accessExpirySeconds) :
    AuthController.refresh t1 n2
        (AuthController.logout s (some (generateTokenPair t0 n1 u).refreshToken) auid).1
        (generateTokenPair t0 n1 u).refreshToken
      = ((AuthController.logout s (some (generateTokenPair t0 n1 u).refreshToken) auid).1,
         Except.error AuthErrorCode.TOKEN_REVOKED) ∧
    verifyAccessToken t2 (generateTokenPair t0 n1 u).accessToken
      = some { userId := u.id, email := u.email, roles := u.roles,
               permissions := u.permissions, type := "access", tokenId := "",
               iss := issuer, aud := audience, iat := t0,
               exp := t0 + accessExpirySeconds } := by
  constructor
  · have hv2 : verifyRefreshToken t1 (generateTokenPair t0 n1 u).refreshToken =
        some { userId := u.id, email := u.email, roles := [], permissions := [],
               type := "refresh", tokenId := n1, iss := issuer, aud := audience,
               iat := t0, exp := t0 + refreshExpirySeconds } := by
      simp [generateTokenPair, generateRefreshToken, verifyRefreshToken, jwtVerify, h1]
    have hinv : RefreshToken.isValid t1 (generateTokenPair t0 n1 u).refreshToken
        (AuthController.logout s (some (generateTokenPair t0 n1 u).refreshToken) auid).1.ledger
        = false := by
      rw [logout_ledger_eq]
      exact isValid_revoke_self _ _ _
    exact refresh_not_valid _ n2 _ _ _ hv2 hinv
  · simp [generateTokenPair, generateAccessToken, verifyAccessToken, jwtVerify, h2]

/-- Claim C5, witness: principal `u1` logs out its refresh credential at
time 0; a refresh attempt at time 5 fails with `TOKEN_REVOKED` and the
access token still verifies at time 7. -/
theorem logout_revokes_refresh_access_survives_witness :
    AuthController.refresh 5 "n2"
        (AuthController.logout cS0 (some (generateTokenPair 0 "n1" cU1).refreshToken)
          (some "u1")).1
        (generateTokenPair 0 "n1" cU1).refreshToken
      = ((AuthController.logout cS0 (some (generateTokenPair 0 "n1" cU1).refreshToken)
           (some "u1")).1,
         Except.error AuthErrorCode.TOKEN_REVOKED) ∧
    verifyAccessToken 7 (generateTokenPair 0 "n1" cU1).accessToken
      = some { userId := "u1", email := "alice@example.com", roles := ["viewer"],
               permissions := ["orders:read"], type := "access", tokenId := "",
               iss := issuer, aud := audience, iat := 0,
               exp := 0 + accessExpirySeconds } :=
  logout_revokes_refresh_access_survives cS0 cU1 0 5 7 "n1" "n2" (some "u1")
    (by decide) (by decide)

/-- Claim C6, counterexample: once the expiry time has passed, verification
of an issued access token fails with the undifferentiated outcome `none` —
the very same outcome a malformed string produces — not with a
distinguished `Expired` error. -/
theorem expired_failure_indistinguishable :
    verifyAccessToken 900 (generateAccessToken 0 cU1) = none ∧
    expiredCauseAccess 900 (generateAccessToken 0 cU1) = true ∧
    expiredCauseAccess 900 (Token.malformed "not-a-signed-credential") = false ∧
    verifyAccessToken 900 (generateAccessToken 0 cU1)
      = verifyAccessToken 900 (Token.malformed "not-a-signed-credential") :=
  ⟨rfl, rfl, rfl, rfl⟩

/-- Claim C6, amended: verifying an access token issued from a claims
snapshot recovers the same subject id, roles and permissions at any time
inside the validity window; once the expiry has passed, verification of the
same token fails — returning `none`, without a cause-distinguishing
`Expired` outcome. -/
theorem access_round_trip_window (u : User) (now t1 t2 : Nat)
    (h1 : t1 < now + accessExpirySeconds) (h2 : now + accessExpirySeconds ≤ t2) :
    verifyAccessToken t1 (generateAccessToken now u)
      = some { userId := u.id, email := u.email, roles := u.roles,
               permissions := u.permissions, type := "access", tokenId := "",
               iss := issuer, aud := audience, iat := now,
               exp := now + accessExpirySeconds } ∧
    verifyAccessToken t2 (generateAccessToken now u) = none := by
  constructor
  · simp [generateAccessToken, verifyAccessToken, jwtVerify, h1]
  · have h2' : ¬ t2 < now + accessExpirySeconds := Nat.not_lt.mpr h2
    simp [generateAccessToken, verifyAccessToken, jwtVerify, h2']

/-- Claim C6, witness: the round trip for `cU1` issued at time 0, verified
at time 899 (inside the window) and at time 900 (expired). -/
theorem access_round_trip_window_witness :
    verifyAccessToken 899 (generateAccessToken 0 cU1)
      = some { userId := "u1", email := "alice@example.com", roles := ["viewer"],
               permissions := ["orders:read"], type := "access", tokenId := "",
               iss := issuer, aud := audience, iat := 0,
               exp := 0 + accessExpirySeconds } ∧
    verifyAccessToken 900 (generateAccessToken 0 cU1) = none :=
  access_round_trip_window cU1 0 899 900 (by decide) (by decide)

/-- Claim C7, counterexample: `User.findByEmail` selects `u.password_hash`
and hands the row to its caller unstripped — the caller receives the
secret hash, so not every read path of the Credential Store strips it. -/
theorem findByEmail_returns_hash :
    User.findByEmail [cU1] "Alice@Example.COM" = some cU1 ∧
    cU1.password_hash = some "bcrypt-hash-1" :=
  ⟨rfl, rfl⟩

/-- Claim C7, amended: `User.findById` never returns a secret hash and
`User.sanitize` strips it, but `User.findByEmail` returns the stored row
as-is — hash included — to its caller (the login handler, which needs it
for password verification and sanitizes only before responding). -/
theorem read_path_hash_stripping (db : List User) (uid e : String) (u v r : User)
    (h1 : User.findById db uid = some u) (h2 : User.findByEmail db e = some r) :
    u.password_hash = none ∧ (User.sanitize v).password_hash = none ∧ r ∈ db := by
  refine ⟨?_, rfl, ?_⟩
  · unfold User.findById at h1
    cases hf : db.find? (fun w => w.id = uid) with
    | none => rw [hf] at h1; simp at h1
    | some w =>
      rw [hf] at h1
      simp only [Option.map_some', Option.some.injEq] at h1
      rw [← h1]
  · exact List.mem_of_find?_eq_some h2

/-- Claim C7, witness: on the one-row store `[cU1]`, `findById` returns the
hashless record, `sanitize` strips the hash, and `findByEmail` returns the
stored row itself. -/
theorem read_path_hash_stripping_witness :
    cU1s.password_hash = none ∧ (User.sanitize cU1).password_hash = none ∧ cU1 ∈ [cU1] :=
  read_path_hash_stripping [cU1] "u1" "alice@example.com" cU1s cU1 cU1 rfl rfl

/-- Claim C8: the user-service middleware treats a request as authenticated
with whatever identity the `x-user-id` / `x-user-email` / `x-user-roles`
headers carry, with no bearer credential present and no check that the
request crossed a trusted gateway — pre-resolved identity headers from an
untrusted network boundary are trusted. -/
theorem identity_headers_trusted_without_credential :
    UserService.authenticate 0
        { xUserId := some "attacker-chosen-id", xUserEmail := some "admin@example.com",
          xUserRoles := some ["admin"], authHeader := none }
      = UserService.USAuthResult.authenticated "attacker-chosen-id" "admin@example.com"
          ["admin"] :=
  rfl

/-- Claim C9: the auth middleware's accept/reject decision and the attached
identity are one and the same function of the request and clock across
every session-cache state — entry present, absent, or cache unavailable
(whose client errors `redisHelpers.get` swallows into a miss). -/
theorem session_cache_is_advisory (now : Nat) (c1 c2 : CacheState) (req : MWRequest) :
    AuthMiddleware.authenticate now c1 req = AuthMiddleware.authenticate now c2 req :=
  rfl

/-- Claim C10: `logout` revokes whatever refresh-token string is presented
— the ledger update is the bare `revoke` of that token, identical whoever
the authenticated caller is — and responds 200 whether or not the token is
known to the ledger and even when the `refreshToken` field is absent. -/
theorem logout_unconditional_revoke_and_200 (s : AuthState) (t : Token)
    (a a2 : Option String) :
    (AuthController.logout s (some t) a).2 = 200 ∧
    (AuthController.logout s none a).2 = 200 ∧
    (AuthController.logout s none a).1.ledger = s.ledger ∧
    (AuthController.logout s (some t) a).1.ledger = RefreshToken.revoke t s.ledger ∧
    (AuthController.logout s (some t) a).1.ledger
      = (AuthController.logout s (some t) a2).1.ledger := by
  cases a <;> cases a2 <;> exact ⟨rfl, rfl, rfl, rfl, rfl⟩

end ERP
